import Mathlib

/-!
Verification development for the synthia miner service
(`src/synthia/miner/`): a shallow embedding of the provider adapters
(`anthropic.py`, `openai.py`), the HTTP dispatch (`BaseLLM.py`), and the
response shaper (`template_miner.py`), with theorems settling the frozen
claims about them.

Python strings are modelled as `String` / `List Char` (code points, as
Python indexes them); Python string methods used by the source
(`lower`, `strip`, `title`, `split`, `find`, slicing) are reimplemented
below by structural recursion so that concrete inputs evaluate by
`decide` / `rfl`.  Dictionaries are association lists (`pyGet` models
`dict.get` / `in`; a `KeyError` raised by `d[k]` is modelled as an
`Except.error`).  The random source (`random.choice`) is modelled by an
injectable index stream `σ : Nat → Nat`, one index per call, with
`pick l (σ i)` choosing element `σ i % l.length`.
-/

namespace Synthia

/-- Python `str.split()` whitespace (ASCII subset used by the repository). -/
def pyIsSpace (c : Char) : Bool :=
  c = ' ' || c = '\t' || c = '\n' || c = '\r' || c = '\x0b' || c = '\x0c'

/-- Split a character list at every character satisfying `p`, keeping empty
pieces: Python `str.split(sep)` for a one-character separator when
`p = (· = sep)`. -/
def splitChars (p : Char → Bool) : List Char → List (List Char)
  | [] => [[]]
  | c :: rest =>
      let r := splitChars p rest
      if p c then [] :: r
      else
        match r with
        | [] => [[c]]
        | w :: ws => (c :: w) :: ws

/-- Python `str.split()` with no argument: split on whitespace runs,
dropping empty pieces. -/
def pySplit (cs : List Char) : List (List Char) :=
  (splitChars pyIsSpace cs).filter (· ≠ [])

/-- Python `sep.join(pieces)` at character level. -/
def joinSep (sep : List Char) : List (List Char) → List Char
  | [] => []
  | [w] => w
  | w :: ws => w ++ sep ++ joinSep sep ws

/-- Python `str.strip()` (ASCII whitespace). -/
def pyStrip (cs : List Char) : List Char :=
  ((cs.dropWhile pyIsSpace).reverse.dropWhile pyIsSpace).reverse

/-- Python `str.lower()` on the ASCII characters the source deals in. -/
def pyLower (cs : List Char) : List Char := cs.map Char.toLower

/-- Helper for `pyTitle`: `cased` records whether the previous character
was a letter (Python title-cases a letter exactly when the character
before it is not cased). -/
def pyTitleAux : Bool → List Char → List Char
  | _, [] => []
  | cased, c :: rest =>
      let c' := if c.isAlpha then (if cased then c.toLower else c.toUpper) else c
      c' :: pyTitleAux c.isAlpha rest

/-- Python `str.title()` on ASCII text. -/
def pyTitle (cs : List Char) : List Char := pyTitleAux false cs

/-- Index of the first occurrence of `needle` in `hay`
(Python `str.find`, as `Option`). -/
def strIdxOf (hay needle : List Char) : Option Nat :=
  if needle.isPrefixOf hay then some 0
  else
    match hay with
    | [] => none
    | _ :: t => (strIdxOf t needle).map (· + 1)

/-- Python `needle in hay` for strings. -/
def strContains (hay needle : List Char) : Bool :=
  (strIdxOf hay needle).isSome

/-- Python `d.get(k)` / `k in d` over the association lists standing in for
the source's dicts (each key is inserted at most once, so first match is
the only match). -/
def pyGet {α : Type} : List (String × α) → String → Option α
  | [], _ => none
  | (k, v) :: rest, key => if k = key then some v else pyGet rest key

/-! ## Field extraction (`AnthropicModule._extract_field`,
`OpenAIModule._extract_field` — the two bodies are identical) -/

/-- The punctuation set `'.,!?()[]\x7b\x7d'` ending a field value
(`_extract_field`, the `end` generator). -/
def isFieldPunct (c : Char) : Bool :=
  c = '.' || c = ',' || c = '!' || c = '?' || c = '(' || c = ')' ||
  c = '[' || c = ']' || c = '\x7b' || c = '\x7d'

/-- The source's indicator list, in the order the code scans it
(`anthropic.py` lines 120–129 / `openai.py` lines 119–128):
"in the domain of" is second. -/
def fieldIndicators : List String :=
  ["in the field of",
   "in the domain of",
   "regarding",
   "concerning",
   "about",
   "related to",
   "in terms of",
   "with respect to"]

/-- Given the lowered text and a found indicator occurrence at `idx`:
the stripped slice from just after the indicator up to the next field
punctuation character or end of string (`_extract_field` lines 135–138). -/
def fieldAfter (cs : List Char) (ind : String) (idx : Nat) : List Char :=
  let start := idx + ind.length
  let stop :=
    match (cs.drop start).findIdx? isFieldPunct with
    | some j => start + j
    | none => cs.length
  pyStrip ((cs.drop start).take (stop - start))

/-- The `for indicator in indicators` loop of `_extract_field`: first
indicator present in the text whose stripped field value is nonempty
wins; an empty value falls through to the next indicator. -/
def extractFieldGo (cs : List Char) : List String → Option String
  | [] => none
  | ind :: rest =>
      match strIdxOf cs ind.data with
      | none => extractFieldGo cs rest
      | some idx =>
          let field := fieldAfter cs ind idx
          if field = [] then extractFieldGo cs rest
          else some (String.mk (pyTitle field))

/-- `AnthropicModule._extract_field` / `OpenAIModule._extract_field`. -/
def extract_field (text : String) : Option String :=
  extractFieldGo (pyLower text.data) fieldIndicators

/-! ## Response shaper (`template_miner.py`, class `Miner_0`) -/

/-- The double-quote character `'"'` scanned for by
`Miner_0._format_response` when extracting a subject line. -/
def dq : Char := '\"'

/-- The quoted span of one line: `start = line.find('"')`,
`end = line.find('"', start + 1)`, span `line[start:end+1]`; `none` when a
quote pair is not found (`_format_response` lines 148–153). -/
def quoteSpan (line : List Char) : Option (List Char) :=
  match line.findIdx? (· = dq) with
  | none => none
  | some start =>
      match (line.drop (start + 1)).findIdx? (· = dq) with
      | none => none
      | some j => some ((line.drop start).take (j + 2))

/-- The `for line in lines` loop of `_format_response`: the first line
holding a full quoted span becomes the subject and is dropped; every
other line is appended to the content list. -/
def subjectScanGo : Option (List Char) → List (List Char) → Option (List Char) × List (List Char)
  | subj, [] => (subj, [])
  | none, line :: rest =>
      if strContains line [dq] then
        match quoteSpan line with
        | some s => subjectScanGo (some s) rest
        | none =>
            let r := subjectScanGo none rest
            (r.1, line :: r.2)
      else
        let r := subjectScanGo none rest
        (r.1, line :: r.2)
  | some s, line :: rest =>
      let r := subjectScanGo (some s) rest
      (r.1, line :: r.2)

/-- The content lines of a raw response (everything
`_format_response` keeps after subject extraction). -/
def contentLines (response : String) : List (List Char) :=
  (subjectScanGo none (splitChars (· = '\n') response.data)).2

/-- The subject line of `_format_response`: the extracted quoted span, or
`'"' + content[0].split('.')[0] + '"'` synthesized when no quoted span
exists (in the synthesis branch no line was consumed, so the content list
equals the full nonempty line list and `content[0]` cannot raise). -/
def subjectOf (response : String) : List Char :=
  match (subjectScanGo none (splitChars (· = '\n') response.data)).1 with
  | some s => s
  | none =>
      dq :: ((splitChars (· = '.') ((contentLines response).headD [])).headD []) ++ [dq]

/-- `words = ' '.join(content).split()` of `_format_response`. -/
def contentWords (response : String) : List (List Char) :=
  pySplit (joinSep [' '] (contentLines response))

/-- `random.choice(l)` under the injected index stream: element `n % len`. -/
def pick (l : List (List Char)) (n : Nat) : List Char :=
  l.getD (n % l.length) []

/-- The `while len(words) < target_length` padding loop of
`_format_response`: one element is appended per iteration — a field
phrase when the running element count is divisible by 3, an audience
term otherwise.  `fuel` is `target_length - len(words)`, the number of
iterations left; `i` indexes the random stream. -/
def padLoop (fp at_ : List (List Char)) (σ : Nat → Nat) :
    Nat → Nat → List (List Char) → List (List Char)
  | 0, _, ws => ws
  | fuel + 1, i, ws =>
      let w := if ws.length % 3 = 0 then pick fp (σ i) else pick at_ (σ i)
      padLoop fp at_ σ fuel (i + 1) (ws ++ [w])

/-- The trim-or-pad step of `_format_response` (lines 164–174) as one
function of the word list: trim to the first `target` elements, or pad
with `padLoop` until the element count reaches `target`, or leave the
list unchanged when the count already equals `target`. -/
def shapeWords (fp at_ : List (List Char)) (σ : Nat → Nat)
    (ws : List (List Char)) (target : Nat) : List (List Char) :=
  if ws.length > target then ws.take target
  else if ws.length < target then padLoop fp at_ σ (target - ws.length) 0 ws
  else ws

/-- The ten field-parameterized filler sentences `base_phrases` of
`Miner_0._get_field_phrases`. -/
def basePhrases (field : String) : List String :=
  ["In the context of " ++ field ++ ",",
   "From a " ++ field ++ " perspective,",
   "As established in " ++ field ++ " literature,",
   "Contemporary research in " ++ field ++ " suggests,",
   "A fundamental principle in " ++ field ++ " states,",
   "Drawing from " ++ field ++ " methodology,",
   "According to " ++ field ++ " theory,",
   "Recent advances in " ++ field ++ " demonstrate,",
   "The " ++ field ++ " paradigm indicates,",
   "Empirical evidence in " ++ field ++ " shows,"]

/-- `Miner_0._get_field_phrases` with the mutable cache
`self.field_phrases` made explicit: returns the phrase list for the field
and the cache after the call (an absent field is inserted; a present one
is returned as cached). -/
def get_field_phrases (cache : List (String × List String)) (field : String) :
    List String × List (String × List String) :=
  match pyGet cache field with
  | some ps => (ps, cache)
  | none => (basePhrases field, cache ++ [(field, basePhrases field)])

/-- The value `_format_response` reads from `_get_field_phrases`. -/
def getFieldPhrases (cache : List (String × List String)) (field : String) :
    List String :=
  (get_field_phrases cache field).1

/-- The fixed audience label sets of
`Miner_0._get_audience_appropriate_terms`. -/
def expert_audiences : List String :=
  ["expert scientist", "lead professor", "academic expert", "industry expert"]

/-- Advanced-tier audience labels. -/
def advanced_audiences : List String :=
  ["early career researcher", "experienced researcher", "graduate student"]

/-- Intermediate-tier audience labels. -/
def intermediate_audiences : List String :=
  ["undergraduate student", "enthusiast", "hobbyist"]

/-- `Miner_0._get_audience_appropriate_terms`. -/
def get_audience_appropriate_terms (audience : String) : List String :=
  if audience ∈ expert_audiences then
    ["paradigmatic", "ontological", "epistemological", "axiomatically", "hermeneutic"]
  else if audience ∈ advanced_audiences then
    ["theoretical", "methodological", "systematic", "analytical", "empirical"]
  else if audience ∈ intermediate_audiences then
    ["conceptual", "practical", "structured", "fundamental", "essential"]
  else
    ["basic", "clear", "straightforward", "simple", "direct"]

/-- The `KeyError` raised by `criteria['field']` on a missing key. -/
def keyErrField : String := "KeyError: 'field'"

/-- The `KeyError` raised by `criteria['target_audience']` on a missing key. -/
def keyErrAudience : String := "KeyError: 'target_audience'"

/-- `Miner_0._format_response(response, criteria, target_length)`.
The criteria dict is an association list; the phrase cache and the random
index stream `σ` are explicit.  An uncaught `KeyError` (criteria missing
`'field'` or `'target_audience'` when the padding branch runs) is the
`Except.error` case. -/
def formatResponse (cache : List (String × List String)) (σ : Nat → Nat)
    (response : String) (criteria : List (String × String)) (target : Nat) :
    Except String String :=
  let subject := subjectOf response
  let ws := contentWords response
  if ws.length > target then
    .ok (String.mk (subject ++ '\n' :: joinSep [' '] (ws.take target)))
  else if ws.length < target then
    match pyGet criteria "field" with
    | none => .error keyErrField
    | some field =>
        match pyGet criteria "target_audience" with
        | none => .error keyErrAudience
        | some audience =>
            .ok (String.mk (subject ++ '\n' :: joinSep [' ']
              (padLoop ((getFieldPhrases cache field).map String.data)
                ((get_audience_appropriate_terms audience).map String.data)
                σ (target - ws.length) 0 ws)))
  else
    .ok (String.mk (subject ++ '\n' :: joinSep [' '] ws))

/-! ## Anthropic adapter (`anthropic.py`, class `AnthropicModule`) -/

/-- The fields of the Anthropic SDK message `AnthropicModule.prompt`
reads: `stop_sequence`, `stop_reason`, and the text blocks of `content`. -/
structure AMessage where
  stop_sequence : Option String
  stop_reason : String
  content : List String

/-- `str(NameError)` for the unbound name `random` in
`AnthropicModule.prompt` / `OpenAIModule.prompt`: `anthropic.py` and
`openai.py` import `random` only inside `_format_response`, so the name
is unbound in `prompt`'s scope and `random.choice(...)` there raises
`NameError`, caught by the surrounding `except Exception`. -/
def nameErrRandom : String := "name 'random' is not defined"

/-- The post-call logic of `AnthropicModule.prompt` (lines 96–115) as a
function of the user prompt and the backend message: stop-state
validation, block concatenation, field extraction, and the `NameError`
path converted to an error string by the `except` clause. -/
def anthropicPrompt (user_prompt : String) (message : AMessage) :
    Option String × String :=
  if message.stop_sequence ≠ none ∨ message.stop_reason ≠ "end_turn" then
    (none, "Could not generate an answer. Stop reason " ++ message.stop_reason)
  else
    let response := String.join message.content
    if response ≠ "" then
      match extract_field user_prompt <|> extract_field response with
      | some _ => (none, nameErrRandom)
      | none => (some response, "")
    else (some response, "")

/-! ## Openrouter adapter (`anthropic.py`, class `OpenrouterModule`) -/

/-- The JSON error envelope of an Openrouter response (`error.code`). -/
structure ORError where
  code : Option Int

/-- One entry of `choices`: `finish_reason` and `message.content`. -/
structure ORChoice where
  finish_reason : String
  content : String

/-- The parts of the Openrouter JSON response the code reads. -/
structure ORResponse where
  error : Option ORError
  choices : List ORChoice

/-- `error is not None and error.get("code") == 402`
(`OpenrouterModule.prompt` line 221). -/
def isCredit402 (resp : ORResponse) : Bool :=
  match resp.error with
  | some err => err.code == some 402
  | none => false

/-- The response handling of `OpenrouterModule.prompt` (lines 219–229).
The outer `Option` is `none` when `json_response["choices"][0]` raises an
uncaught `KeyError`/`IndexError` (no choices in the response); otherwise
the `(answer, error)` outcome. -/
def openrouterPrompt (resp : ORResponse) : Option (Option String × String) :=
  if isCredit402 resp then some (none, "Insufficient credits")
  else
    match resp.choices with
    | [] => none
    | answer :: _ =>
        if answer.finish_reason ≠ "end_turn" then
          some (none, "Could not get a complete answer: " ++ answer.finish_reason)
        else some (some answer.content, "")

/-- `OpenrouterModule.module_map` (`anthropic.py` lines 171–176). -/
def module_map : List (String × String) :=
  [("claude-3-opus-20240229", "anthropic/claude-3-opus"),
   ("anthropic/claude-3-opus", "anthropic/claude-3-opus"),
   ("anthropic/claude-3.5-sonnet", "anthropic/claude-3.5-sonnet"),
   ("claude-3-5-sonnet-20240620", "anthropic/claude-3.5-sonnet")]

/-- The membership check of `OpenrouterModule.__init__` (lines 182–185):
a configured model outside `module_map` raises `ValueError` at
construction. -/
def openrouterInit (model : String) : Except String Unit :=
  if (pyGet module_map model).isSome then .ok ()
  else .error ("Model " ++ model ++ " not supported on Openrouter")

/-- The `OpenrouterModule.model` property
(`module_name_mapping` indexing `module_map`; an absent key would raise,
modelled as `none`). -/
def openrouterModel (model : String) : Option String :=
  pyGet module_map model

/-! ## OpenAI adapter (`openai.py`, class `OpenAIModule`) -/

/-- The parts of the first completion choice `OpenAIModule.prompt` reads.
`finish_reason` is carried to record that the code never consults it. -/
structure OACompletion where
  finish_reason : String
  content : String

/-- The post-call logic of `OpenAIModule.prompt` (lines 101–114).  The
source returns `None, response` on the success path and `str(e), ""`
from its `except` clause, so the answer/error slots come out inverted;
the field-found path raises the `random` `NameError` exactly as in
`AnthropicModule.prompt`. -/
def openaiPrompt (user_prompt : String) (completion : OACompletion) :
    Option String × String :=
  let response := completion.content
  if response ≠ "" then
    match extract_field user_prompt <|> extract_field response with
    | some _ => (some nameErrRandom, "")
    | none => (none, response)
  else (none, response)

/-! ## HTTP dispatch (`BaseLLM.py`, `BaseLLM.generate`) -/

/-- What a call to an adapter's `prompt` does, as `generate` observes it:
either it returns an `(answer, error)` pair, or it raises an exception
carrying an optional `status_code` attribute and a message. -/
inductive PromptResult where
  | returned (answer : Option String) (error : String)
  | raised (status_code : Option Nat) (message : String)

/-- The HTTP outcome of the `POST /method/generate` handler: a 200 body
`\x7b"answer": ...\x7d` or an `HTTPException` with status and detail. -/
inductive HttpResponse where
  | ok (answer : String)
  | error (status_code : Nat) (detail : String)

/-- `BaseLLM.generate` (lines 52–63): an exception maps to
`getattr(e, 'status_code', 500)` with `str(e)` as detail; a
`(None, explanation)` outcome maps to status 500 with the explanation;
any other `(answer, _)` outcome returns the answer. -/
def generate : PromptResult → HttpResponse
  | .raised sc msg => .error (sc.getD 500) msg
  | .returned none explanation => .error 500 explanation
  | .returned (some answer) _ => .ok answer

/-! ## Helper lemmas -/

/-- Each `padLoop` iteration appends exactly one element. -/
theorem padLoop_length (fp at_ : List (List Char)) (σ : Nat → Nat) :
    ∀ (fuel i : Nat) (ws : List (List Char)),
      (padLoop fp at_ σ fuel i ws).length = ws.length + fuel := by
  intro fuel
  induction fuel with
  | zero => intro i ws; rfl
  | succ n ih =>
      intro i ws
      simp only [padLoop]
      rw [ih]
      simp
      omega

/-- The trim-or-pad step always yields a list of exactly `target`
elements (each appended filler entry counting as one element). -/
theorem shapeWords_length (fp at_ : List (List Char)) (σ : Nat → Nat)
    (ws : List (List Char)) (target : Nat) :
    (shapeWords fp at_ σ ws target).length = target := by
  unfold shapeWords
  split
  · next h => simp; omega
  · split
    · next h => rw [padLoop_length]; omega
    · next h1 h2 => omega

/-- Invariant of the phrase cache: every stored entry is the base phrase
list of its key (the only writer is `get_field_phrases`). -/
def CacheWF (cache : List (String × List String)) : Prop :=
  ∀ kv ∈ cache, kv.2 = basePhrases kv.1

/-- A lookup in a well-formed cache can only return the base phrases. -/
theorem pyGet_cacheWF {cache : List (String × List String)} {field : String}
    {ps : List String} (h : CacheWF cache) (hg : pyGet cache field = some ps) :
    ps = basePhrases field := by
  induction cache with
  | nil => simp [pyGet] at hg
  | cons kv rest ih =>
      obtain ⟨k, v⟩ := kv
      by_cases hk : k = field
      · subst hk
        simp [pyGet] at hg
        subst hg
        exact h (k, v) (by simp)
      · simp [pyGet, hk] at hg
        exact ih (fun kv hm => h kv (by simp [hm])) hg

/-- Appending a fresh key makes it found. -/
theorem pyGet_append_fresh {α : Type} {cache : List (String × α)} {field : String}
    (v : α) (h : pyGet cache field = none) :
    pyGet (cache ++ [(field, v)]) field = some v := by
  induction cache with
  | nil => simp [pyGet]
  | cons kv rest ih =>
      obtain ⟨k, w⟩ := kv
      by_cases hk : k = field
      · simp [pyGet, hk] at h
      · simp [pyGet, hk] at h ⊢
        exact ih h

/-! ## Claim theorems -/

/-- C2: `BaseLLM.generate` maps a successful `(answer, "")` outcome of
the adapter's `prompt` to the 200 body with that answer, a
`(None, message)` outcome to an HTTP 500 with the message as detail, and
a raised exception to the status taken from its `status_code` attribute,
defaulting to 500, with `str(e)` as detail. -/
theorem c2_generate_dispatch :
    (∀ answer : String, generate (.returned (some answer) "") = .ok answer) ∧
    (∀ message : String, generate (.returned none message) = .error 500 message) ∧
    (∀ (sc : Option Nat) (message : String),
        generate (.raised sc message) = .error (sc.getD 500) message) ∧
    (∀ message : String, generate (.raised none message) = .error 500 message) :=
  ⟨fun _ => rfl, fun _ => rfl, fun _ _ => rfl, fun _ => rfl⟩

/-- C5: the Openrouter model resolver is total on the keys of
`module_map` and rejects any other model at construction:
`"claude-3-5-sonnet-20240620"` constructs and resolves to
`"anthropic/claude-3.5-sonnet"`, `"gpt-4"` fails construction with a
`ValueError`, every mapped key constructs and resolves to its mapped
value, and every unmapped key fails construction. -/
theorem c5_model_resolver :
    (openrouterInit "claude-3-5-sonnet-20240620" = .ok () ∧
      openrouterModel "claude-3-5-sonnet-20240620" = some "anthropic/claude-3.5-sonnet") ∧
    (openrouterInit "gpt-4" = .error "Model gpt-4 not supported on Openrouter") ∧
    (∀ (m r : String), pyGet module_map m = some r →
        openrouterInit m = .ok () ∧ openrouterModel m = some r) ∧
    (∀ m : String, pyGet module_map m = none →
        openrouterInit m = .error ("Model " ++ m ++ " not supported on Openrouter")) := by
  refine ⟨⟨by rfl, by rfl⟩, by rfl, ?_, ?_⟩
  · intro m r h
    constructor
    · unfold openrouterInit
      rw [h]
      rfl
    · unfold openrouterModel
      exact h
  · intro m h
    unfold openrouterInit
    rw [h]
    rfl

/-- Witness for C5: the hypothesis-bearing parts applied at the mapped
key `"claude-3-opus-20240229"` and the unmapped key `"gpt-4"`. -/
theorem c5_model_resolver_witness :
    pyGet module_map "claude-3-opus-20240229" = some "anthropic/claude-3-opus" ∧
    (openrouterInit "claude-3-opus-20240229" = .ok () ∧
      openrouterModel "claude-3-opus-20240229" = some "anthropic/claude-3-opus") ∧
    pyGet module_map "gpt-4" = none ∧
    openrouterInit "gpt-4" = .error ("Model " ++ "gpt-4" ++ " not supported on Openrouter") :=
  ⟨by rfl, c5_model_resolver.2.2.1 "claude-3-opus-20240229" "anthropic/claude-3-opus" (by rfl),
   by rfl, c5_model_resolver.2.2.2 "gpt-4" (by rfl)⟩

/-- C7: a backend JSON response whose error envelope carries code 402
makes `OpenrouterModule.prompt` return exactly
`(None, "Insufficient credits")`, and `BaseLLM.generate` maps that
`(None, message)` outcome to HTTP 500, a non-200 status. -/
theorem c7_insufficient_credits (resp : ORResponse) (err : ORError)
    (h1 : resp.error = some err) (h2 : err.code = some 402) :
    openrouterPrompt resp = some (none, "Insufficient credits") ∧
    generate (.returned none "Insufficient credits") =
      .error 500 "Insufficient credits" ∧ (500 : Nat) ≠ 200 := by
  refine ⟨?_, rfl, by decide⟩
  unfold openrouterPrompt
  have h402 : isCredit402 resp = true := by
    unfold isCredit402
    rw [h1]
    simp [h2]
  rw [h402]
  rfl

/-- Witness for C7: a concrete response whose error envelope has code
402. -/
theorem c7_insufficient_credits_witness :
    (ORResponse.mk (some (ORError.mk (some 402))) []).error = some (ORError.mk (some 402)) ∧
    (ORError.mk (some 402)).code = some 402 ∧
    (openrouterPrompt (ORResponse.mk (some (ORError.mk (some 402))) []) =
        some (none, "Insufficient credits") ∧
      generate (.returned none "Insufficient credits") =
        .error 500 "Insufficient credits" ∧ (500 : Nat) ≠ 200) :=
  ⟨rfl, rfl, c7_insufficient_credits _ _ rfl rfl⟩

/-- C9: `Miner_0._get_field_phrases` is a per-field memo: on any
well-formed cache it returns the ten field-parameterized filler
sentences for the field, the cache stays well-formed, and an immediate
repeat call with the same field returns the identical list and leaves
the cache unchanged (built at most once per distinct field). -/
theorem c9_phrase_cache (cache : List (String × List String)) (field : String)
    (h : CacheWF cache) :
    (get_field_phrases cache field).1 = basePhrases field ∧
    (get_field_phrases cache field).1.length = 10 ∧
    CacheWF (get_field_phrases cache field).2 ∧
    get_field_phrases (get_field_phrases cache field).2 field =
      ((get_field_phrases cache field).1, (get_field_phrases cache field).2) := by
  cases hg : pyGet cache field with
  | some ps =>
      have hps := pyGet_cacheWF h hg
      refine ⟨?_, ?_, ?_, ?_⟩
      · simp [get_field_phrases, hg, hps]
      · simp [get_field_phrases, hg, hps, basePhrases]
      · simp only [get_field_phrases, hg]
        exact h
      · simp [get_field_phrases, hg]
  | none =>
      refine ⟨?_, ?_, ?_, ?_⟩
      · simp [get_field_phrases, hg]
      · simp [get_field_phrases, hg, basePhrases]
      · simp only [get_field_phrases, hg]
        intro kv hm
        rcases List.mem_append.mp hm with hin | hnew
        · exact h kv hin
        · simp at hnew
          subst hnew
          rfl
      · simp only [get_field_phrases, hg]
        rw [pyGet_append_fresh (basePhrases field) hg]

/-- Witness for C9: the theorem applied to the empty cache (the state
`Miner_0.__init__` starts from) at field `"Biology"`. -/
theorem c9_phrase_cache_witness :
    CacheWF [] ∧
    ((get_field_phrases [] "Biology").1 = basePhrases "Biology" ∧
      (get_field_phrases [] "Biology").1.length = 10 ∧
      CacheWF (get_field_phrases [] "Biology").2 ∧
      get_field_phrases (get_field_phrases [] "Biology").2 "Biology" =
        ((get_field_phrases [] "Biology").1, (get_field_phrases [] "Biology").2)) :=
  ⟨fun kv hm => absurd hm (List.not_mem_nil kv),
   c9_phrase_cache [] "Biology" (fun kv hm => absurd hm (List.not_mem_nil kv))⟩

/-- C8: truncation in `Miner_0._format_response` is a prefix operation:
whenever the target does not exceed the content word count, the body is
exactly the first `n` words, verbatim and in order (the `n = length`
case returns the words unchanged). -/
theorem c8_truncation (cache : List (String × List String)) (σ : Nat → Nat)
    (response : String) (criteria : List (String × String)) (n : Nat)
    (h : n ≤ (contentWords response).length) :
    formatResponse cache σ response criteria n =
      .ok (String.mk (subjectOf response ++ '\n' ::
        joinSep [' '] ((contentWords response).take n))) := by
  simp only [formatResponse]
  rcases lt_or_eq_of_le h with hlt | heq
  · rw [if_pos hlt]
  · rw [if_neg (by omega), if_neg (by omega), heq, List.take_length]

/-- Witness for C8: truncating `"a b c"` to its first 2 words. -/
theorem c8_truncation_witness :
    2 ≤ (contentWords "a b c").length ∧
    formatResponse [] (fun _ => 0) "a b c" [] 2 =
      .ok (String.mk (subjectOf "a b c" ++ '\n' ::
        joinSep [' '] ((contentWords "a b c").take 2))) :=
  ⟨by decide, c8_truncation [] (fun _ => 0) "a b c" [] 2 (by decide)⟩

/-- C3 counterexample: the claim promises a body of exactly
`targetWords` whitespace-split words, but padding appends whole
multi-word phrases as single elements.  Padding `"Hello"` (1 word) to a
target of 4 under the always-first random stream yields the body
`"Hello basic basic In the context of Biology,"`: 4 elements but 8
whitespace-split words. -/
theorem c3_counterexample :
    formatResponse [] (fun _ => 0) "\"S\"\nHello"
      [("field", "Biology"), ("target_audience", "layman")] 4 =
      .ok ("\"S\"" ++ "\n" ++ "Hello basic basic In the context of Biology,") ∧
    (pySplit ("Hello basic basic In the context of Biology,".data)).length = 8 ∧
    (8 : Nat) ≠ 4 :=
  ⟨rfl, by decide, by decide⟩

/-- C3 as amended: the trim/pad step of `Miner_0._format_response`
returns a body of exactly `targetWords` space-joined elements — trimming
keeps the first `targetWords` words, padding appends one filler entry
per iteration (field phrase at running element count divisible by 3,
audience term otherwise) until the element count equals the target, and
an equal-length input is unchanged; each appended entry counts as one
element even when it is a multi-word phrase, so the whitespace-split
word count of a padded body can exceed `targetWords`.  Requires the
criteria lookups of `'field'` and `'target_audience'` to succeed. -/
theorem c3_length_invariant (cache : List (String × List String)) (σ : Nat → Nat)
    (response : String) (criteria : List (String × String)) (target : Nat)
    (field audience : String)
    (hf : pyGet criteria "field" = some field)
    (ha : pyGet criteria "target_audience" = some audience) :
    formatResponse cache σ response criteria target =
      .ok (String.mk (subjectOf response ++ '\n' :: joinSep [' ']
        (shapeWords ((getFieldPhrases cache field).map String.data)
          ((get_audience_appropriate_terms audience).map String.data)
          σ (contentWords response) target))) ∧
    ∀ (fp at_ ws : List (List Char)), (shapeWords fp at_ σ ws target).length = target := by
  constructor
  · simp only [formatResponse, shapeWords, hf, ha]
    split_ifs with h1 h2 <;> rfl
  · intro fp at_ ws
    exact shapeWords_length fp at_ σ ws target

/-- Witness for C3: the padding case of the amended claim at a concrete
input (1 content word padded to 4 elements). -/
theorem c3_length_invariant_witness :
    pyGet [("field", "Biology"), ("target_audience", "layman")] "field" = some "Biology" ∧
    pyGet [("field", "Biology"), ("target_audience", "layman")] "target_audience" = some "layman" ∧
    (formatResponse [] (fun _ => 1) "\"T\"\nWorld"
        [("field", "Biology"), ("target_audience", "layman")] 4 =
      .ok (String.mk (subjectOf "\"T\"\nWorld" ++ '\n' :: joinSep [' ']
        (shapeWords ((getFieldPhrases [] "Biology").map String.data)
          ((get_audience_appropriate_terms "layman").map String.data)
          (fun _ => 1) (contentWords "\"T\"\nWorld") 4))) ∧
      ∀ (fp at_ ws : List (List Char)),
        (shapeWords fp at_ (fun _ => 1) ws 4).length = 4) :=
  ⟨rfl, rfl, c3_length_invariant [] (fun _ => 1) "\"T\"\nWorld"
    [("field", "Biology"), ("target_audience", "layman")] 4 "Biology" "layman" rfl rfl⟩

/-- C6 counterexample: a criteria map missing `'target_audience'` does
not degrade to the general vocabulary tier — with padding required,
`Miner_0._format_response` raises `KeyError` instead of completing. -/
theorem c6_counterexample :
    formatResponse [] (fun _ => 0) "\"Q\"\nHi" [("field", "Biology")] 4 =
      .error keyErrAudience ∧
    keyErrAudience = "KeyError: 'target_audience'" :=
  ⟨rfl, rfl⟩

/-- C6 as amended: every audience label outside the expert, advanced and
intermediate membership sets maps to the general tier vocabulary
`["basic", "clear", "straightforward", "simple", "direct"]`; but a
criteria map missing the `'target_audience'` key does not degrade —
whenever padding is required, `_format_response` raises `KeyError`
(caught only by `Miner_0.forward`'s blanket handler, which returns the
empty string). -/
theorem c6_audience_default :
    (∀ audience : String,
        audience ∉ expert_audiences → audience ∉ advanced_audiences →
        audience ∉ intermediate_audiences →
        get_audience_appropriate_terms audience =
          ["basic", "clear", "straightforward", "simple", "direct"]) ∧
    (∀ (cache : List (String × List String)) (σ : Nat → Nat) (response : String)
        (criteria : List (String × String)) (target : Nat) (field : String),
        pyGet criteria "field" = some field →
        pyGet criteria "target_audience" = none →
        (contentWords response).length < target →
        formatResponse cache σ response criteria target = .error keyErrAudience) := by
  constructor
  · intro a h1 h2 h3
    simp [get_audience_appropriate_terms, h1, h2, h3]
  · intro cache σ response criteria target field hf ha hlt
    simp only [formatResponse, hf, ha]
    rw [if_neg (by omega), if_pos hlt]

/-- Witness for C6: the unknown label `"layman"` defaults to the general
tier, and concrete criteria lacking `'target_audience'` raise. -/
theorem c6_audience_default_witness :
    ("layman" ∉ expert_audiences ∧ "layman" ∉ advanced_audiences ∧
      "layman" ∉ intermediate_audiences) ∧
    get_audience_appropriate_terms "layman" =
      ["basic", "clear", "straightforward", "simple", "direct"] ∧
    (pyGet [("field", "Chemistry")] "field" = some "Chemistry" ∧
      pyGet ([("field", "Chemistry")] : List (String × String)) "target_audience" = none ∧
      (contentWords "\"Q\"\nOne two").length < 5) ∧
    formatResponse [] (fun _ => 0) "\"Q\"\nOne two" [("field", "Chemistry")] 5 =
      .error keyErrAudience :=
  ⟨⟨by decide, by decide, by decide⟩,
   c6_audience_default.1 "layman" (by decide) (by decide) (by decide),
   ⟨rfl, rfl, by decide⟩,
   c6_audience_default.2 [] (fun _ => 0) "\"Q\"\nOne two" [("field", "Chemistry")]
     5 "Chemistry" rfl rfl (by decide)⟩

/-- The indicator order asserted by the claim (C4): "in the domain of"
last, after "with respect to".  The source scans "in the domain of"
second. -/
def claimedIndicators : List String :=
  ["in the field of",
   "regarding",
   "concerning",
   "about",
   "related to",
   "in terms of",
   "with respect to",
   "in the domain of"]

/-- The claim's extraction rule, by its own words: the first indicator of
the given order occurring anywhere in the lowered text wins, the value is
the trimmed, title-cased substring up to the next punctuation mark, and
nothing is returned when no indicator occurs. -/
def extractFieldClaimed (text : String) : Option String :=
  claimedIndicators.findSome? fun ind =>
    match strIdxOf (pyLower text.data) ind.data with
    | none => none
    | some idx => some (String.mk (pyTitle (fieldAfter (pyLower text.data) ind idx)))

/-- One indicator's candidate field value, with an empty trimmed value
treated as no candidate (the `if field:` guard of `_extract_field`). -/
def fieldCandidate (cs : List Char) (ind : String) : Option String :=
  match strIdxOf cs ind.data with
  | none => none
  | some idx =>
      let field := fieldAfter cs ind idx
      if field = [] then none else some (String.mk (pyTitle field))

/-- Reference formulation of the amended C4: scan the source's indicator
order and return the first nonempty candidate. -/
def extractFieldRef (text : String) : Option String :=
  fieldIndicators.findSome? (fieldCandidate (pyLower text.data))

/-- The indicator loop equals its first-nonempty-candidate formulation. -/
theorem extractFieldGo_eq_findSome (cs : List Char) (inds : List String) :
    extractFieldGo cs inds = inds.findSome? (fieldCandidate cs) := by
  induction inds with
  | nil => rfl
  | cons ind rest ih =>
      simp only [extractFieldGo, fieldCandidate, List.findSome?]
      cases hidx : strIdxOf cs ind.data with
      | none => simpa using ih
      | some idx =>
          by_cases hf : fieldAfter cs ind idx = []
          · simpa [hf] using ih
          · simp [hf]

/-- With no indicator present in the lowered text, the loop finds
nothing. -/
theorem extractFieldGo_none (cs : List Char) (inds : List String)
    (h : ∀ ind ∈ inds, strContains cs ind.data = false) :
    extractFieldGo cs inds = none := by
  induction inds with
  | nil => rfl
  | cons ind rest ih =>
      have h1 := h ind (by simp)
      cases hidx : strIdxOf cs ind.data with
      | none =>
          simp only [extractFieldGo, hidx]
          exact ih fun i hi => h i (by simp [hi])
      | some idx =>
          exfalso
          rw [strContains, hidx] at h1
          simp at h1

/-- C4 counterexample: on a text holding "regarding foo." and
"in the domain of bar.", the source's scan order ("in the domain of"
second) yields "Bar", while the claim's order ("in the domain of" last,
behind "regarding") would yield "Foo". -/
theorem c4_counterexample :
    extract_field "regarding foo. in the domain of bar." = some "Bar" ∧
    extractFieldClaimed "regarding foo. in the domain of bar." = some "Foo" ∧
    (some "Bar" : Option String) ≠ some "Foo" :=
  ⟨by decide, by decide, by decide⟩

/-- C4 as amended: `_extract_field` scans the lowercased input for the
indicators in the source order "in the field of", "in the domain of",
"regarding", "concerning", "about", "related to", "in terms of",
"with respect to"; the first indicator in that scan order occurring
anywhere with a nonempty trimmed value wins (an empty value falls
through to the next indicator); the value is the substring from just
after the indicator to the next punctuation mark among
`. , ! ? ( ) [ ] \x7b \x7d` or end of string, trimmed and title-cased;
nothing is returned when no indicator occurs.  The spec's own
order-determinism example ("regarding" beats "about") holds. -/
theorem c4_indicator_scan :
    (∀ text : String, extract_field text = extractFieldRef text) ∧
    extract_field "regarding quantum physics. about biology," = some "Quantum Physics" ∧
    (∀ text : String,
        (∀ ind ∈ fieldIndicators, strContains (pyLower text.data) ind.data = false) →
        extract_field text = none) := by
  refine ⟨?_, by decide, ?_⟩
  · intro text
    exact extractFieldGo_eq_findSome (pyLower text.data) fieldIndicators
  · intro text h
    exact extractFieldGo_none (pyLower text.data) fieldIndicators h

/-- Witness for C4: the no-indicator part applied to `"hello world."`. -/
theorem c4_indicator_scan_witness :
    (∀ ind ∈ fieldIndicators, strContains (pyLower "hello world.".data) ind.data = false) ∧
    extract_field "hello world." = none :=
  ⟨by decide, c4_indicator_scan.2.2 "hello world." (by decide)⟩

/-- C1 counterexample: for a completion the Openrouter backend reports
as stopped with `finish_reason = "length"`, `OpenrouterModule.prompt`
returns the error message `"Could not get a complete answer: length"`,
not the claimed `"Could not generate an answer. Stop reason length"`. -/
theorem c1_counterexample :
    openrouterPrompt (ORResponse.mk none [ORChoice.mk "length" "partial answer"]) =
      some (none, "Could not get a complete answer: length") ∧
    "Could not get a complete answer: length" ≠
      "Could not generate an answer. Stop reason " ++ "length" :=
  ⟨rfl, by decide⟩

/-- C1 as amended: the Anthropic adapter rejects every completion whose
stop sequence is set or whose `stop_reason` differs from `"end_turn"`,
returning `(None, "Could not generate an answer. Stop reason <X>")`;
the Openrouter adapter rejects every completion whose `finish_reason`
differs from `"end_turn"`, returning
`(None, "Could not get a complete answer: <X>")`; the OpenAI adapter
performs no stop-condition validation at all — its outcome is
independent of the reported finish reason. -/
theorem c1_stop_validation :
    (∀ (user_prompt : String) (msg : AMessage),
        msg.stop_sequence ≠ none ∨ msg.stop_reason ≠ "end_turn" →
        anthropicPrompt user_prompt msg =
          (none, "Could not generate an answer. Stop reason " ++ msg.stop_reason)) ∧
    (∀ (resp : ORResponse) (answer : ORChoice) (rest : List ORChoice),
        isCredit402 resp = false →
        resp.choices = answer :: rest →
        answer.finish_reason ≠ "end_turn" →
        openrouterPrompt resp =
          some (none, "Could not get a complete answer: " ++ answer.finish_reason)) ∧
    (∀ (user_prompt content fr1 fr2 : String),
        openaiPrompt user_prompt (OACompletion.mk fr1 content) =
          openaiPrompt user_prompt (OACompletion.mk fr2 content)) := by
  refine ⟨?_, ?_, fun _ _ _ _ => rfl⟩
  · intro up msg h
    simp only [anthropicPrompt]
    rw [if_pos h]
  · intro resp answer rest h402 hch hfr
    simp only [openrouterPrompt, h402, hch]
    rw [if_pos hfr]
    simp

/-- Witness for C1: the Anthropic part at a `"max_tokens"` stop and the
Openrouter part at a `"max_tokens"` finish reason. -/
theorem c1_stop_validation_witness :
    ((AMessage.mk none "max_tokens" ["hi"]).stop_sequence ≠ none ∨
      (AMessage.mk none "max_tokens" ["hi"]).stop_reason ≠ "end_turn") ∧
    anthropicPrompt "p" (AMessage.mk none "max_tokens" ["hi"]) =
      (none, "Could not generate an answer. Stop reason " ++ "max_tokens") ∧
    isCredit402 (ORResponse.mk none [ORChoice.mk "max_tokens" "x"]) = false ∧
    openrouterPrompt (ORResponse.mk none [ORChoice.mk "max_tokens" "x"]) =
      some (none, "Could not get a complete answer: " ++ "max_tokens") :=
  ⟨Or.inr (by decide),
   c1_stop_validation.1 "p" (AMessage.mk none "max_tokens" ["hi"]) (Or.inr (by decide)),
   rfl,
   c1_stop_validation.2.1 (ORResponse.mk none [ORChoice.mk "max_tokens" "x"])
     (ORChoice.mk "max_tokens" "x") [] rfl rfl (by decide)⟩

/-- C10 counterexample: the claim covers every normally-ended completion
with a field indicator in the user prompt or answer, but an empty
answer text skips the field check entirely: with the indicator "about"
in the prompt and no content blocks, `AnthropicModule.prompt` returns
`("", "")`, an answer outcome, not an error. -/
theorem c10_counterexample :
    extract_field "tell me about biology" = some "Biology" ∧
    anthropicPrompt "tell me about biology" (AMessage.mk none "end_turn" []) =
      (some "", "") :=
  ⟨by decide, rfl⟩

/-- C10 as amended: in `AnthropicModule.prompt`, for every completion
reported as normally ended whose joined answer text is nonempty, a field
extracted from the user prompt or the answer makes the call return the
error outcome `(None, "name 'random' is not defined")` — the `random`
used for style selection is only imported inside `_format_response`, so
it is unbound in `prompt`'s scope and the `except` handler converts the
`NameError` to an error string — while a completion with no extractable
field is returned as `(answer, "")`. -/
theorem c10_random_unbound (user_prompt : String) (msg : AMessage)
    (h1 : msg.stop_sequence = none) (h2 : msg.stop_reason = "end_turn")
    (h3 : String.join msg.content ≠ "") :
    (∀ f : String,
        (extract_field user_prompt <|> extract_field (String.join msg.content)) = some f →
        anthropicPrompt user_prompt msg = (none, nameErrRandom)) ∧
    ((extract_field user_prompt <|> extract_field (String.join msg.content)) = none →
        anthropicPrompt user_prompt msg = (some (String.join msg.content), "")) := by
  have hcond : ¬(msg.stop_sequence ≠ none ∨ msg.stop_reason ≠ "end_turn") := by
    simp [h1, h2]
  constructor
  · intro f hf
    simp only [anthropicPrompt]
    rw [if_neg hcond, if_pos h3, hf]
  · intro hn
    simp only [anthropicPrompt]
    rw [if_neg hcond, if_pos h3, hn]

/-- Witness for C10: a normally-ended completion with answer `"ok"` and
the indicator "about" in the prompt yields the `NameError` outcome. -/
theorem c10_random_unbound_witness :
    (AMessage.mk none "end_turn" ["ok"]).stop_sequence = none ∧
    (AMessage.mk none "end_turn" ["ok"]).stop_reason = "end_turn" ∧
    String.join ["ok"] ≠ "" ∧
    (extract_field "tell me about chemistry" <|>
      extract_field (String.join ["ok"])) = some "Chemistry" ∧
    anthropicPrompt "tell me about chemistry" (AMessage.mk none "end_turn" ["ok"]) =
      (none, nameErrRandom) :=
  ⟨rfl, rfl, by decide, by decide,
   (c10_random_unbound "tell me about chemistry" (AMessage.mk none "end_turn" ["ok"])
     rfl rfl (by decide)).1 "Chemistry" (by decide)⟩

end Synthia
